import Mathlib

/-!
Shallow embedding of `src/main.py` of the stock-price-api repository.

The service is a FastAPI app with three GET routes; the only non-trivial one
is `GET /stock/{symbol}` (`get_stock_price`), which uppercases the symbol,
builds a Yahoo-Finance URL, invokes the external crawler collaborator once
with a fixed extraction schema and browser configuration, and turns the
collaborator's outcome into an HTTP response via a try/except ladder.

The external collaborator (crawl4ai) is opaque: it is modelled as a function
from the arguments the handler passes (`ScrapeArgs`) to an outcome
(`CollabOutcome`): either a result object carrying an optional
`extracted_content` string, or a raised exception.

Python values produced by `json.loads` are modelled by `JValue`; `json.loads`
itself by the executable parser `json_loads` (standard JSON grammar; error
messages are short tags rather than Python's line/column texts, and numbers
are kept exact as mantissa/scale pairs — no claim depends on either detail).

Python exception semantics that matter here are modelled exactly:
`fastapi.HTTPException` is a subclass of `Exception`, so the
`except Exception` clause at the bottom of `get_stock_price` catches the
`HTTPException(404, ...)` raises that occur inside the `try` block, and
re-raises them as a 500 with the stringified original exception in the
detail (`str` of a Starlette `HTTPException` is `"{status_code}: {detail}"`).

The handler model is instrumented: it returns the HTTP response, the list of
collaborator invocations made (the arguments passed), and the error-level
log lines emitted (info-level logs are elided; no claim concerns them).
-/

/-- A Python value as produced by `json.loads`: `None`, `bool`, numbers
(kept exact as `mant * 10 ^ exp10`), `str`, `list`, `dict`. -/
inductive JValue where
  | jnull : JValue
  | jbool (b : Bool) : JValue
  | jnum (mant : Int) (exp10 : Int) : JValue
  | jstr (s : String) : JValue
  | jarr (items : List JValue) : JValue
  | jobj (members : List (String × JValue)) : JValue
deriving Repr

/-- Python truthiness of a `JValue` (`bool(v)`), as used by
`if data` and `if not price` in `get_stock_price`. -/
def JValue.falsy : JValue → Bool
  | .jnull => true
  | .jbool b => !b
  | .jnum m _ => m == 0
  | .jstr s => s == ""
  | .jarr l => l.isEmpty
  | .jobj l => l.isEmpty

/-- Truthiness of `Optional[str]` (`None` and `""` are falsy), as used by
`if not result.extracted_content`. -/
def optStrFalsy : Option String → Bool
  | none => true
  | some s => s == ""

/-- Truthiness of the `price` variable (`None` or a falsy `JValue`), as used
by `if not price`. -/
def optFalsy : Option JValue → Bool
  | none => true
  | some v => v.falsy

/-- Dictionary insertion as performed while `json.loads` builds a `dict`:
a duplicate key keeps its position and takes the later value. -/
def insertKey (k : String) (v : JValue) :
    List (String × JValue) → List (String × JValue)
  | [] => [(k, v)]
  | (k', v') :: rest =>
    if k = k' then (k, v) :: rest else (k', v') :: insertKey k v rest

/-- Dictionary lookup (`d.get(k, None)`); keys are unique by construction. -/
def lookupKey (kvs : List (String × JValue)) (k : String) : Option JValue :=
  match kvs with
  | [] => none
  | (k', v) :: rest => if k = k' then some v else lookupKey rest k

/-! ### The JSON parser modelling `json.loads` -/

/-- Skip JSON whitespace. -/
def skipWs : List Char → List Char
  | c :: cs =>
    if c = ' ' ∨ c = '\t' ∨ c = '\n' ∨ c = '\r' then skipWs cs else c :: cs
  | [] => []

/-- Hex digit value, for `\uXXXX` string escapes. -/
def hexVal (c : Char) : Option Nat :=
  if '0' ≤ c ∧ c ≤ '9' then some (c.toNat - '0'.toNat)
  else if 'a' ≤ c ∧ c ≤ 'f' then some (c.toNat - 'a'.toNat + 10)
  else if 'A' ≤ c ∧ c ≤ 'F' then some (c.toNat - 'A'.toNat + 10)
  else none

/-- Parse the body of a JSON string (after the opening quote), handling the
standard escapes; returns the decoded characters and the remaining input. -/
def parseStrAux : List Char → List Char → Except String (String × List Char)
  | acc, '"' :: rest => .ok (String.mk acc.reverse, rest)
  | acc, '\\' :: 'u' :: a :: b :: c :: d :: rest =>
    match hexVal a, hexVal b, hexVal c, hexVal d with
    | some ha, some hb, some hc, some hd =>
      parseStrAux (Char.ofNat (((ha * 16 + hb) * 16 + hc) * 16 + hd) :: acc) rest
    | _, _, _, _ => .error "Invalid \\uXXXX escape"
  | acc, '\\' :: e :: rest =>
    match e with
    | '"' => parseStrAux ('"' :: acc) rest
    | '\\' => parseStrAux ('\\' :: acc) rest
    | '/' => parseStrAux ('/' :: acc) rest
    | 'b' => parseStrAux ('\x08' :: acc) rest
    | 'f' => parseStrAux ('\x0c' :: acc) rest
    | 'n' => parseStrAux ('\n' :: acc) rest
    | 'r' => parseStrAux ('\r' :: acc) rest
    | 't' => parseStrAux ('\t' :: acc) rest
    | _ => .error "Invalid \\escape"
  | acc, c :: rest =>
    if c.toNat < 0x20 then .error "Invalid control character"
    else parseStrAux (c :: acc) rest
  | _, [] => .error "Unterminated string"

/-- Digits accumulated into a natural number; returns the value, the digit
count, and the remaining input. -/
def parseDigits (acc : Nat) (n : Nat) : List Char → Nat × Nat × List Char
  | c :: cs =>
    if '0' ≤ c ∧ c ≤ '9' then
      parseDigits (acc * 10 + (c.toNat - '0'.toNat)) (n + 1) cs
    else (acc, n, c :: cs)
  | [] => (acc, n, [])

/-- Parse the optional fraction part of a JSON number; returns the extended
mantissa, the scale contribution, and the remaining input. -/
def parseFrac (mant : Nat) : List Char → Except String (Nat × Int × List Char)
  | '.' :: r =>
    match parseDigits 0 0 r with
    | (_, 0, _) => .error "Expecting digits after decimal point"
    | (f, n, rest) => .ok (mant * 10 ^ n + f, -(n : Int), rest)
  | cs => .ok (mant, 0, cs)

/-- Parse the optional exponent part of a JSON number. -/
def parseExp : List Char → Except String (Int × List Char)
  | c :: r =>
    if c = 'e' ∨ c = 'E' then
      let (sgn, r2) : Int × List Char :=
        match r with
        | '+' :: t => (1, t)
        | '-' :: t => (-1, t)
        | t => (1, t)
      match parseDigits 0 0 r2 with
      | (_, 0, _) => .error "Expecting digits in exponent"
      | (e, _, rest) => .ok (sgn * (e : Int), rest)
    else .ok (0, c :: r)
  | [] => .ok (0, [])

/-- Parse a JSON number starting at a sign or digit. -/
def parseNumber (cs : List Char) : Except String (JValue × List Char) :=
  let (neg, cs1) : Bool × List Char :=
    match cs with
    | '-' :: r => (true, r)
    | _ => (false, cs)
  match parseDigits 0 0 cs1 with
  | (_, 0, _) => .error "Expecting value"
  | (ip, _, cs2) =>
    match parseFrac ip cs2 with
    | .error m => .error m
    | .ok (m, e1, cs3) =>
      match parseExp cs3 with
      | .error m2 => .error m2
      | .ok (e2, cs4) =>
        let mi : Int := if neg then -(m : Int) else (m : Int)
        .ok (JValue.jnum mi (e1 + e2), cs4)

mutual

/-- Parse one JSON value; the fuel strictly exceeds the steps any input of
this length can take, so running out is unreachable from `json_loads`. -/
def parseValue : Nat → List Char → Except String (JValue × List Char)
  | 0, _ => .error "Depth limit exceeded"
  | f + 1, cs =>
    match skipWs cs with
    | [] => .error "Expecting value"
    | '"' :: rest =>
      match parseStrAux [] rest with
      | .ok (s, rest2) => .ok (.jstr s, rest2)
      | .error m => .error m
    | '[' :: rest =>
      match skipWs rest with
      | ']' :: rest2 => .ok (.jarr [], rest2)
      | rest2 => parseArrItems f rest2 []
    | '\x7b' :: rest =>
      match skipWs rest with
      | '\x7d' :: rest2 => .ok (.jobj [], rest2)
      | rest2 => parseObjItems f rest2 []
    | 't' :: 'r' :: 'u' :: 'e' :: rest => .ok (.jbool true, rest)
    | 'f' :: 'a' :: 'l' :: 's' :: 'e' :: rest => .ok (.jbool false, rest)
    | 'n' :: 'u' :: 'l' :: 'l' :: rest => .ok (.jnull, rest)
    | c :: rest =>
      if c = '-' ∨ ('0' ≤ c ∧ c ≤ '9') then parseNumber (c :: rest)
      else .error "Expecting value"

/-- Parse the items of a non-empty JSON array, after the opening bracket. -/
def parseArrItems : Nat → List Char → List JValue →
    Except String (JValue × List Char)
  | 0, _, _ => .error "Depth limit exceeded"
  | f + 1, cs, acc =>
    match parseValue f cs with
    | .error m => .error m
    | .ok (v, rest) =>
      match skipWs rest with
      | ',' :: rest2 => parseArrItems f rest2 (v :: acc)
      | ']' :: rest2 => .ok (.jarr (v :: acc).reverse, rest2)
      | _ => .error "Expecting comma delimiter"

/-- Parse the members of a non-empty JSON object, after the opening brace. -/
def parseObjItems : Nat → List Char → List (String × JValue) →
    Except String (JValue × List Char)
  | 0, _, _ => .error "Depth limit exceeded"
  | f + 1, cs, acc =>
    match skipWs cs with
    | '"' :: rest =>
      match parseStrAux [] rest with
      | .error m => .error m
      | .ok (k, rest2) =>
        match skipWs rest2 with
        | ':' :: rest3 =>
          match parseValue f rest3 with
          | .error m => .error m
          | .ok (v, rest4) =>
            match skipWs rest4 with
            | ',' :: rest5 => parseObjItems f rest5 (insertKey k v acc)
            | '\x7d' :: rest5 => .ok (.jobj (insertKey k v acc), rest5)
            | _ => .error "Expecting comma delimiter"
        | _ => .error "Expecting colon delimiter"
    | _ => .error "Expecting property name enclosed in double quotes"

end

/-- The model of Python's `json.loads`: parse one value, then require only
whitespace to remain. -/
def json_loads (s : String) : Except String JValue :=
  let cs := s.data
  match parseValue (2 * cs.length + 4) cs with
  | .error m => .error m
  | .ok (v, rest) =>
    match skipWs rest with
    | [] => .ok v
    | _ => .error "Extra data"

/-! ### Data passed to the collaborator (lines 62-105 of `src/main.py`) -/

/-- One field of the extraction schema literal. -/
structure FieldSpec where
  name : String
  selector : String
  type : String
deriving DecidableEq, Repr

/-- The extraction schema (`schema` dict literal in `get_stock_price`). -/
structure Schema where
  baseSelector : String
  fields : List FieldSpec
deriving DecidableEq, Repr

/-- The schema literal for extracting the price. -/
def schema : Schema :=
  { baseSelector := "div.container.yf-16vvaki"
    fields := [{ name := "price", selector := "span", type := "text" }] }

/-- The browser session policy (`BrowserConfig(...)` call). -/
structure BrowserConfig where
  headless : Bool
  user_agent_mode : String
  text_mode : Bool
  light_mode : Bool
deriving DecidableEq, Repr

/-- The browser configuration literal. -/
def browser_config : BrowserConfig :=
  { headless := true, user_agent_mode := "random",
    text_mode := true, light_mode := true }

/-- The page-side JavaScript that clicks the cookie accept button
(`click_cookie_button_js` triple-quoted literal). -/
def click_cookie_button_js : String :=
  "\n    (function() \x7b\n        const acceptButton = document.querySelector(\x27button.accept-all\x27);\n        if (acceptButton) \x7b\n            acceptButton.click();\n            console.log(\x27Clicked cookie accept button.\x27);\n        \x7d else \x7b\n            console.log(\x27Cookie accept button not found using selector \"button.accept-all\".\x27);\n        \x7d\n    \x7d)();\n    "

/-- The crawler run configuration (`CrawlerRunConfig(...)` call); the
extraction and scraping strategy wrappers are recorded by their payloads. -/
structure CrawlerRunConfig where
  exclude_external_links : Bool
  remove_overlay_elements : Bool
  extraction_schema : Schema
  scraping_strategy : String
  js_code : String
  wait_for : String
deriving DecidableEq, Repr

/-- The crawler run configuration literal. -/
def crawler_run_config : CrawlerRunConfig :=
  { exclude_external_links := true
    remove_overlay_elements := true
    extraction_schema := schema
    scraping_strategy := "LXMLWebScrapingStrategy"
    js_code := click_cookie_button_js
    wait_for := "css:body" }

/-- Everything `get_stock_price` hands to `crawler.arun` for one request. -/
structure ScrapeArgs where
  url : String
  browser_config : BrowserConfig
  config : CrawlerRunConfig
deriving DecidableEq, Repr

/-! ### Python exceptions and the collaborator's outcome -/

/-- The exceptions that can flow through `get_stock_price`:
`fastapi.HTTPException` (a subclass of `Exception`!), `json.JSONDecodeError`,
and any other exception, carrying its `str(e)` text. -/
inductive PyExc where
  | httpExc (status_code : Nat) (detail : String) : PyExc
  | jsonDecodeError (msg : String) : PyExc
  | genericExc (msg : String) : PyExc
deriving DecidableEq, Repr

/-- Python's `str(e)` for the exceptions above; a Starlette `HTTPException`
renders as `"{status_code}: {detail}"`. -/
def pyStr : PyExc → String
  | .httpExc st d => toString st ++ ": " ++ d
  | .jsonDecodeError m => m
  | .genericExc m => m

/-- Outcome of the collaborator call `crawler.arun(...)`: either a result
object with its `extracted_content` field (`None` or a string), or a raised
exception. -/
inductive CollabOutcome where
  | returned (extracted_content : Option String) : CollabOutcome
  | raised (e : PyExc) : CollabOutcome

/-! ### The route handlers -/

/-- An HTTP response as FastAPI serialises it: status code and JSON body
(an `HTTPException` becomes `{"detail": ...}` with its status). -/
structure HTTPResponse where
  status_code : Nat
  body : JValue
deriving Repr

/-- Observable result of one request: the HTTP response, the collaborator
invocations made, and the error-level log lines emitted. -/
structure HandlerResult where
  response : HTTPResponse
  calls : List ScrapeArgs
  errorLogs : List String
deriving Repr

/-- Python's `str.upper()` (ASCII-faithful): uppercase every character. -/
def pyUpper (s : String) : String := String.mk (s.data.map Char.toUpper)

/-- The target URL f-string (line 62). -/
def yahoo_finance_url (symbol : String) : String :=
  "https://finance.yahoo.com/quote/" ++ symbol ++ "/"

/-- The full argument bundle the handler passes to the collaborator for a
(already uppercased) symbol. -/
def mkScrapeArgs (symbol : String) : ScrapeArgs :=
  { url := yahoo_finance_url symbol
    browser_config := browser_config
    config := crawler_run_config }

/-- Python `data[0]`: list indexing, string indexing, or a `KeyError` /
`TypeError` for other values; messages are the `str(e)` texts. -/
def subscript0 : JValue → Except PyExc JValue
  | .jarr (x :: _) => .ok x
  | .jarr [] => .error (.genericExc "list index out of range")
  | .jstr s =>
    match s.data with
    | c :: _ => .ok (.jstr (String.mk [c]))
    | [] => .error (.genericExc "string index out of range")
  | .jobj _ => .error (.genericExc "0")
  | .jnull => .error (.genericExc "\x27NoneType\x27 object is not subscriptable")
  | .jbool _ => .error (.genericExc "\x27bool\x27 object is not subscriptable")
  | .jnum _ _ => .error (.genericExc "\x27float\x27 object is not subscriptable")

/-- Python `v.get(key, None)`: dictionary lookup, or an `AttributeError`
for non-dict values. -/
def pyGet (v : JValue) (key : String) : Except PyExc (Option JValue) :=
  match v with
  | .jobj kvs => .ok (lookupKey kvs key)
  | .jstr _ => .error (.genericExc "\x27str\x27 object has no attribute \x27get\x27")
  | .jarr _ => .error (.genericExc "\x27list\x27 object has no attribute \x27get\x27")
  | .jnull => .error (.genericExc "\x27NoneType\x27 object has no attribute \x27get\x27")
  | .jbool _ => .error (.genericExc "\x27bool\x27 object has no attribute \x27get\x27")
  | .jnum _ _ => .error (.genericExc "\x27float\x27 object has no attribute \x27get\x27")

/-- Line 119: `price = data[0].get("price", None) if data else None`. -/
def getPrice (data : JValue) : Except PyExc (Option JValue) :=
  if data.falsy then .ok none
  else
    match subscript0 data with
    | .error e => .error e
    | .ok first => pyGet first "price"

/-- The `HTTPException` raised when no content was extracted (line 116). -/
def notFoundSymbolExc : PyExc :=
  .httpExc 404 "Price not found for the given symbol."

/-- The `HTTPException` raised when the price field is missing or falsy
(line 123). -/
def notFoundDataExc : PyExc :=
  .httpExc 404 "Price not found in the extracted data."

/-- The error log emitted when no content was extracted (line 115). -/
def noContentLog : String := "No extracted content found."

/-- The error log emitted when the price field is missing or falsy
(line 122). -/
def noPriceLog : String := "Price not found in extracted data."

/-- The body of the `try` block (lines 110-125) given the collaborator's
outcome: the success payload or the exception that propagates to the
`except` ladder, together with the error logs emitted inside the block. -/
def runBody (symbol : String) :
    CollabOutcome → Except PyExc JValue × List String
  | .raised e => (.error e, [])
  | .returned none => (.error notFoundSymbolExc, [noContentLog])
  | .returned (some content) =>
    if content = "" then (.error notFoundSymbolExc, [noContentLog])
    else
      match json_loads content with
      | .error m => (.error (.jsonDecodeError m), [])
      | .ok data =>
        match getPrice data with
        | .error e => (.error e, [])
        | .ok p =>
          match p with
          | none => (.error notFoundDataExc, [noPriceLog])
          | some price =>
            if price.falsy then (.error notFoundDataExc, [noPriceLog])
            else
              (.ok (.jobj [("symbol", .jstr symbol), ("price", price)]), [])

/-- The error log emitted by the matching `except` clause (lines 127/130):
`except json.JSONDecodeError` is tried first, `except Exception` catches
everything else — including the handler's own `HTTPException(404)`s. -/
def exceptLog : PyExc → String
  | .jsonDecodeError m => "JSON decoding error: " ++ m
  | e => "Error during crawl: " ++ pyStr e

/-- The response produced by the matching `except` clause (lines 128/131):
both clauses raise a fresh `HTTPException(500, ...)`, which FastAPI then
serialises. -/
def translateExc : PyExc → HTTPResponse
  | .jsonDecodeError m =>
    ⟨500, .jobj [("detail", .jstr ("Failed to parse extracted data: " ++ m))]⟩
  | e =>
    ⟨500, .jobj [("detail", .jstr ("Error fetching stock price: " ++ pyStr e))]⟩

/-- The `GET /stock/{symbol}` handler, parameterised by the collaborator's
behaviour: uppercase the symbol, build the argument bundle, run the `try`
body on the collaborator's outcome, and translate any exception. -/
def get_stock_price (collab : ScrapeArgs → CollabOutcome)
    (symbol : String) : HandlerResult :=
  let sym := pyUpper symbol
  let args := mkScrapeArgs sym
  match runBody sym (collab args) with
  | (.ok body, logs) => ⟨⟨200, body⟩, [args], logs⟩
  | (.error e, logs) => ⟨translateExc e, [args], logs ++ [exceptLog e]⟩

/-- The `GET /health` handler: a constant payload, no collaborator call,
no logging — the collaborator parameter records that it has access to the
same collaborator yet never invokes it. -/
def health_check (_collab : ScrapeArgs → CollabOutcome) : HandlerResult :=
  ⟨⟨200, .jobj [("status", .jstr "healthy")]⟩, [], []⟩

/-- The `GET /` handler: a constant welcome payload. -/
def read_root : HandlerResult :=
  ⟨⟨200, .jobj [("message", .jstr "Welcome to the Real-Time Stock Price API. Use /stock/\x7bsymbol\x7d to get prices.")]⟩, [], []⟩

/-! ### Helper lemmas -/

/-- Both `except` clauses raise a fresh `HTTPException(500, ...)`, so every
exception that reaches the ladder surfaces with status 500. -/
theorem translateExc_status (e : PyExc) : (translateExc e).status_code = 500 := by
  cases e <;> rfl

/-- The handler invokes the collaborator exactly once, with the argument
bundle built from the uppercased symbol. -/
theorem get_stock_price_calls (collab : ScrapeArgs → CollabOutcome)
    (s : String) :
    (get_stock_price collab s).calls = [mkScrapeArgs (pyUpper s)] := by
  unfold get_stock_price
  cases hre : runBody (pyUpper s) (collab (mkScrapeArgs (pyUpper s))) with
  | mk res logs => cases res <;> simp [hre]

/-- A successful `try` body always returns the two-field quote object for
the (uppercased) symbol it was given. -/
theorem runBody_ok_shape (symbol : String) (out : CollabOutcome)
    (b : JValue) (logs : List String)
    (h : runBody symbol out = (Except.ok b, logs)) :
    ∃ p, b = JValue.jobj [("symbol", JValue.jstr symbol), ("price", p)] := by
  cases out with
  | raised e => simp [runBody] at h
  | returned ec =>
    cases ec with
    | none => simp [runBody] at h
    | some content =>
      simp only [runBody] at h
      split at h
      · simp at h
      · split at h
        · simp at h
        · split at h
          · simp at h
          · split at h
            · simp at h
            · split at h
              · simp at h
              · simp at h
                exact ⟨_, h.1.symm⟩

/-! ### Claim theorems -/

/-- C1 (counter-evidence): when the collaborator returns no extracted
content, the response is HTTP 500, not the claimed 404 — the
`HTTPException(404, "Price not found for the given symbol.")` raised inside
the `try` is caught by `except Exception` and re-raised as
`HTTPException(500, "Error fetching stock price: " + str(e))`. -/
theorem empty_content_yields_500 :
    (get_stock_price (fun _ => CollabOutcome.returned none) "XXXX").response
      = ⟨500, .jobj [("detail", .jstr "Error fetching stock price: 404: Price not found for the given symbol.")]⟩ := rfl

/-- C2 (counter-evidence): when the collaborator returns
`[{"price": ""}]`, the response is HTTP 500, not the claimed 404 — the
`HTTPException(404, "Price not found in the extracted data.")` raised inside
the `try` is caught by `except Exception` and re-raised as a 500. The
response is indeed not a 200 with an empty price. -/
theorem falsy_price_yields_500 :
    (get_stock_price
        (fun _ => CollabOutcome.returned (some "[\x7b\"price\": \"\"\x7d]"))
        "XXXX").response
      = ⟨500, .jobj [("detail", .jstr "Error fetching stock price: 404: Price not found in the extracted data.")]⟩ := rfl

/-- C3: for every symbol and every collaborator behaviour, the URL handed
to the collaborator embeds the uppercased symbol, and the `symbol` field of
a 200 response is the uppercase of the input path parameter. -/
theorem symbol_uppercased_in_url_and_response
    (s : String) (collab : ScrapeArgs → CollabOutcome) :
    (∀ a ∈ (get_stock_price collab s).calls,
        a.url = "https://finance.yahoo.com/quote/" ++ pyUpper s ++ "/")
    ∧ ∀ body, (get_stock_price collab s).response = ⟨200, body⟩ →
        ∃ p, body = JValue.jobj
          [("symbol", JValue.jstr (pyUpper s)), ("price", p)] := by
  constructor
  · intro a ha
    rw [get_stock_price_calls] at ha
    simp at ha
    subst ha
    rfl
  · intro body hb
    cases hre : runBody (pyUpper s) (collab (mkScrapeArgs (pyUpper s))) with
    | mk res logs =>
      cases res with
      | ok b =>
        have hresp : (get_stock_price collab s).response = ⟨200, b⟩ := by
          simp [get_stock_price, hre]
        rw [hresp] at hb
        have hbb : b = body := by
          have := congrArg HTTPResponse.body hb
          simpa using this
        subst hbb
        exact runBody_ok_shape _ _ _ _ hre
      | error e =>
        exfalso
        have hresp : (get_stock_price collab s).response = translateExc e := by
          simp [get_stock_price, hre]
        rw [hresp] at hb
        have h5 := translateExc_status e
        rw [hb] at h5
        simp at h5

/-- C3 witness: for the input `aapl` and a collaborator returning a valid
price payload, the URL embeds `AAPL` and the 200 body carries
`symbol = "AAPL"`. -/
theorem symbol_uppercased_witness :
    (∀ a ∈ (get_stock_price
        (fun _ => CollabOutcome.returned (some "[\x7b\"price\": \"1\"\x7d]"))
        "aapl").calls,
      a.url = "https://finance.yahoo.com/quote/" ++ pyUpper "aapl" ++ "/")
    ∧ ∀ body, (get_stock_price
        (fun _ => CollabOutcome.returned (some "[\x7b\"price\": \"1\"\x7d]"))
        "aapl").response = ⟨200, body⟩ →
        ∃ p, body = JValue.jobj
          [("symbol", JValue.jstr (pyUpper "aapl")), ("price", p)] :=
  symbol_uppercased_in_url_and_response "aapl"
    (fun _ => CollabOutcome.returned (some "[\x7b\"price\": \"1\"\x7d]"))

/-- C4: when the collaborator returns non-empty content that fails to parse
as JSON, the response is HTTP 500 and the detail is the parse-failure text
with the original parser error message appended. -/
theorem parse_failure_yields_500 (s content m : String) (hne : content ≠ "")
    (hparse : json_loads content = .error m) :
    (get_stock_price (fun _ => CollabOutcome.returned (some content)) s).response
      = ⟨500, .jobj [("detail", .jstr ("Failed to parse extracted data: " ++ m))]⟩ := by
  simp [get_stock_price, runBody, hne, hparse, translateExc]

/-- C4 witness: the content `not json` is non-empty, fails to parse with
message `Expecting value`, and that message appears in the 500 detail. -/
theorem parse_failure_witness :
    ("not json" ≠ "" ∧ json_loads "not json" = .error "Expecting value")
    ∧ (get_stock_price (fun _ => CollabOutcome.returned (some "not json"))
        "AAPL").response
      = ⟨500, .jobj [("detail", .jstr ("Failed to parse extracted data: " ++ "Expecting value"))]⟩ :=
  ⟨⟨by decide, rfl⟩,
    parse_failure_yields_500 "AAPL" "not json" "Expecting value" (by decide) rfl⟩

/-- C5: when the collaborator returns exactly `[{"price": "189.50"}]` for
`GET /stock/MSFT`, the response is HTTP 200 with body
`{"symbol": "MSFT", "price": "189.50"}`. -/
theorem msft_concrete_success :
    (get_stock_price
        (fun _ => CollabOutcome.returned (some "[\x7b\"price\": \"189.50\"\x7d]"))
        "MSFT").response
      = ⟨200, .jobj [("symbol", .jstr "MSFT"), ("price", .jstr "189.50")]⟩ := rfl

/-- C6: when the collaborator call itself raises any exception other than a
JSON parse error, the handler returns HTTP 500 with the stringified
underlying error inside the detail; the handler is a total function, so
every collaborator failure is confined to that request's response. -/
theorem collaborator_failure_yields_500 (s : String) (e : PyExc)
    (h : ∀ m, e ≠ PyExc.jsonDecodeError m) :
    (get_stock_price (fun _ => CollabOutcome.raised e) s).response
      = ⟨500, .jobj [("detail", .jstr ("Error fetching stock price: " ++ pyStr e))]⟩ := by
  cases e with
  | jsonDecodeError m => exact absurd rfl (h m)
  | httpExc st d => rfl
  | genericExc m => rfl

/-- C6 witness: a timeout raised by the collaborator surfaces as a 500 whose
detail embeds the stringified error. -/
theorem collaborator_failure_witness :
    (get_stock_price
        (fun _ => CollabOutcome.raised
          (.genericExc "Page.goto: Timeout 30000ms exceeded"))
        "aapl").response
      = ⟨500, .jobj [("detail", .jstr ("Error fetching stock price: "
          ++ pyStr (.genericExc "Page.goto: Timeout 30000ms exceeded")))]⟩ :=
  collaborator_failure_yields_500 "aapl"
    (.genericExc "Page.goto: Timeout 30000ms exceeded")
    (fun _ hm => PyExc.noConfusion hm)

/-- C7: `GET /health` returns `{"status": "healthy"}` with HTTP 200 for
every collaborator behaviour, and its call list is empty — the handler
never invokes the collaborator. -/
theorem health_check_constant (collab : ScrapeArgs → CollabOutcome) :
    health_check collab
      = ⟨⟨200, .jobj [("status", .jstr "healthy")]⟩, [], []⟩ := rfl

/-- C8: the two not-found causes stay distinguishable: the detail string
and error log produced when the collaborator returns no content at all
differ, as strings, from those produced when content is present but the
first element's price field is missing or falsy. -/
theorem not_found_details_distinguishable (s₁ s₂ content : String)
    (hne : content ≠ "") (data : JValue)
    (hparse : json_loads content = .ok data)
    (p : Option JValue) (hp : getPrice data = .ok p)
    (hfalsy : optFalsy p = true) :
    (get_stock_price (fun _ => CollabOutcome.returned none) s₁).response
      = ⟨500, .jobj [("detail", .jstr "Error fetching stock price: 404: Price not found for the given symbol.")]⟩
    ∧ (get_stock_price (fun _ => CollabOutcome.returned (some content)) s₂).response
      = ⟨500, .jobj [("detail", .jstr "Error fetching stock price: 404: Price not found in the extracted data.")]⟩
    ∧ ("Error fetching stock price: 404: Price not found for the given symbol." : String)
      ≠ "Error fetching stock price: 404: Price not found in the extracted data."
    ∧ noContentLog ∈ (get_stock_price (fun _ => CollabOutcome.returned none) s₁).errorLogs
    ∧ noPriceLog ∈ (get_stock_price (fun _ => CollabOutcome.returned (some content)) s₂).errorLogs
    ∧ noContentLog ≠ noPriceLog := by
  have hrb : runBody (pyUpper s₂) (CollabOutcome.returned (some content))
      = (.error notFoundDataExc, [noPriceLog]) := by
    cases p with
    | none => simp [runBody, hne, hparse, hp]
    | some v =>
      have hv : v.falsy = true := by simpa [optFalsy] using hfalsy
      simp [runBody, hne, hparse, hp, hv]
  refine ⟨rfl, ?_, by decide, by simp [get_stock_price, runBody], ?_, by decide⟩
  · have hresp : (get_stock_price
        (fun _ => CollabOutcome.returned (some content)) s₂).response
          = translateExc notFoundDataExc := by
      simp [get_stock_price, hrb]
    rw [hresp]
    rfl
  · have hlog : (get_stock_price
        (fun _ => CollabOutcome.returned (some content)) s₂).errorLogs
          = [noPriceLog, exceptLog notFoundDataExc] := by
      simp [get_stock_price, hrb]
    rw [hlog]
    simp

/-- C8 witness: the two causes, instantiated with no content at all versus
the concrete content `[{"price": ""}]`, produce distinct details and
distinct error logs. -/
theorem not_found_details_witness :
    (get_stock_price (fun _ => CollabOutcome.returned none) "IBM").response
      = ⟨500, .jobj [("detail", .jstr "Error fetching stock price: 404: Price not found for the given symbol.")]⟩
    ∧ (get_stock_price
        (fun _ => CollabOutcome.returned (some "[\x7b\"price\": \"\"\x7d]"))
        "SPY").response
      = ⟨500, .jobj [("detail", .jstr "Error fetching stock price: 404: Price not found in the extracted data.")]⟩
    ∧ ("Error fetching stock price: 404: Price not found for the given symbol." : String)
      ≠ "Error fetching stock price: 404: Price not found in the extracted data."
    ∧ noContentLog ∈ (get_stock_price
        (fun _ => CollabOutcome.returned none) "IBM").errorLogs
    ∧ noPriceLog ∈ (get_stock_price
        (fun _ => CollabOutcome.returned (some "[\x7b\"price\": \"\"\x7d]"))
        "SPY").errorLogs
    ∧ noContentLog ≠ noPriceLog :=
  not_found_details_distinguishable "IBM" "SPY" "[\x7b\"price\": \"\"\x7d]"
    (by decide) (JValue.jarr [JValue.jobj [("price", JValue.jstr "")]]) rfl
    (some (JValue.jstr "")) rfl rfl

/-- C9: the extraction schema and the browser session policy handed to the
collaborator are identical across any two requests, whatever the symbols
and whatever the collaborator does; the whole run configuration is
constant too. -/
theorem schema_and_policy_constant (s₁ s₂ : String)
    (collab₁ collab₂ : ScrapeArgs → CollabOutcome)
    (a₁ a₂ : ScrapeArgs)
    (h₁ : a₁ ∈ (get_stock_price collab₁ s₁).calls)
    (h₂ : a₂ ∈ (get_stock_price collab₂ s₂).calls) :
    a₁.config.extraction_schema = a₂.config.extraction_schema
    ∧ a₁.browser_config = a₂.browser_config
    ∧ a₁.config = a₂.config := by
  rw [get_stock_price_calls] at h₁ h₂
  simp at h₁ h₂
  subst h₁
  subst h₂
  exact ⟨rfl, rfl, rfl⟩

/-- C9 witness: two requests with different symbols and different
collaborator behaviours receive the same schema, policy and run
configuration. -/
theorem schema_and_policy_witness :
    (mkScrapeArgs (pyUpper "aapl")).config.extraction_schema
      = (mkScrapeArgs (pyUpper "msft")).config.extraction_schema
    ∧ (mkScrapeArgs (pyUpper "aapl")).browser_config
      = (mkScrapeArgs (pyUpper "msft")).browser_config
    ∧ (mkScrapeArgs (pyUpper "aapl")).config
      = (mkScrapeArgs (pyUpper "msft")).config :=
  schema_and_policy_constant "aapl" "msft"
    (fun _ => CollabOutcome.returned none)
    (fun _ => CollabOutcome.raised (.genericExc "crashed"))
    (mkScrapeArgs (pyUpper "aapl")) (mkScrapeArgs (pyUpper "msft"))
    (by rw [get_stock_price_calls]; simp)
    (by rw [get_stock_price_calls]; simp)

/-- C10: content parsing to an empty JSON array takes the price-not-found
branch (its exception and its error log), and reading the first element is
guarded: `getPrice` never raises the list index-out-of-range error, for
any parsed array. -/
theorem empty_array_guarded_no_index (s content : String) (hne : content ≠ "")
    (hparse : json_loads content = .ok (JValue.jarr [])) :
    runBody (pyUpper s) (CollabOutcome.returned (some content))
        = (.error notFoundDataExc, [noPriceLog])
    ∧ noPriceLog ∈ (get_stock_price
        (fun _ => CollabOutcome.returned (some content)) s).errorLogs
    ∧ ∀ l : List JValue, getPrice (JValue.jarr l)
        ≠ .error (PyExc.genericExc "list index out of range") := by
  have hrb : runBody (pyUpper s) (CollabOutcome.returned (some content))
      = (.error notFoundDataExc, [noPriceLog]) := by
    simp [runBody, hne, hparse, getPrice, JValue.falsy]
  refine ⟨hrb, ?_, ?_⟩
  · have hlog : (get_stock_price
        (fun _ => CollabOutcome.returned (some content)) s).errorLogs
          = [noPriceLog, exceptLog notFoundDataExc] := by
      simp [get_stock_price, hrb]
    rw [hlog]
    simp
  · intro l
    cases l with
    | nil => simp [getPrice, JValue.falsy]
    | cons x xs => cases x <;> simp [getPrice, JValue.falsy, subscript0, pyGet]

/-- C10 witness: the concrete content `[]` parses to the empty array, takes
the price-not-found branch, and no array indexing error can arise. -/
theorem empty_array_witness :
    runBody (pyUpper "SPY") (CollabOutcome.returned (some "[]"))
        = (.error notFoundDataExc, [noPriceLog])
    ∧ noPriceLog ∈ (get_stock_price
        (fun _ => CollabOutcome.returned (some "[]")) "SPY").errorLogs
    ∧ ∀ l : List JValue, getPrice (JValue.jarr l)
        ≠ .error (PyExc.genericExc "list index out of range") :=
  empty_array_guarded_no_index "SPY" "[]" (by decide) rfl
